import Mathlib

/-
Verification of the session-coordinator core of the xdl repository
(`UserManagerInstance`, exercised by `src/__integration_tests__/UserManager-test.js`).

The repository snapshot contains only the integration test; the `../User`
module that implements `UserManagerInstance` is not among the source files.
The definitions below therefore embed the coordinator as the specification
describes it (session data model, expiry rule, single-flight slow path,
login/logout/ensure operations), and the theorems settle the claims against
this model.  Network collaborators (the identity service) are passed in as
explicit function records, and every operation returns, next to its result
and the successor state, a count of the collaborator invocations it made,
so that "no network call" / "exactly one network call" claims are statable.
-/

namespace Xdl

/-- Modelled from the spec: a Session is the token pair plus issuance data
(`idToken`, `refreshToken`, `issuedAt`, `clientIdentity`); the implementation
holding it is missing from the sources. -/
structure Session where
  idToken : String
  refreshToken : String
  issuedAt : Nat
  clientIdentity : String
  deriving DecidableEq, Repr

/-- Modelled from the spec: a Profile carries the human-identity attributes
returned by the provider. -/
structure Profile where
  username : String
  email : String
  givenName : String
  familyName : String
  userId : String
  deriving DecidableEq, Repr

/-- Modelled from the spec: the externally visible User is a Session combined
with a Profile, only ever returned fully populated. -/
structure User where
  session : Session
  profile : Profile
  deriving DecidableEq, Repr

/-- Modelled from the spec: the error taxonomy of the coordinator
(`NotInitialized`, `NotLoggedIn`, `AuthenticationFailed`, `RefreshFailed`). -/
inductive AuthError where
  | NotInitialized
  | NotLoggedIn
  | AuthenticationFailed
  | RefreshFailed
  deriving DecidableEq, Repr

/-- Modelled from the spec: the only user-visible message the spec fixes is
`NotLoggedIn`'s, which is exactly "Not logged in"; the other messages are
unspecified and the strings chosen here are placeholders. -/
def AuthError.message : AuthError → String
  | .NotInitialized => "Not initialized"
  | .NotLoggedIn => "Not logged in"
  | .AuthenticationFailed => "Authentication failed"
  | .RefreshFailed => "Refresh failed"

/-- Login credentials for the "user-pass" strategy. -/
structure Credentials where
  username : String
  password : String
  deriving DecidableEq, Repr

/-- Modelled from the spec: the IdentityClient collaborator, reduced to the
three operations the claims exercise (`login`, `fetchProfile`, `refresh`);
its implementation is external to the repository. -/
structure IdentityClient where
  login : String → Credentials → Except AuthError Session
  fetchProfile : String → Except AuthError Profile
  refresh : String → Except AuthError Session

/-- Counts of collaborator invocations performed by one coordinator
operation: profile fetches and token refreshes. -/
structure Calls where
  profileFetches : Nat
  refreshes : Nat
  deriving DecidableEq, Repr

/-- Modelled from the spec: the coordinator state of `UserManagerInstance`,
whose implementation is missing from the sources — the in-memory cached user
(`_currentUser`, the name the test mutates), the bound client identity
(absent while the instance is not yet initialized), the CredentialStore
mirror holding the persisted session, and the expiry threshold
(`refreshSessionThreshold`, the field name the test assigns). -/
structure UserManagerInstance where
  clientIdentity : Option String
  _currentUser : Option User
  store : Option Session
  refreshSessionThreshold : Nat
  deriving DecidableEq, Repr

/-- Modelled from the spec: the expiry rule — a Session is expired when
`now - issuedAt >= refreshThresholdSeconds` (natural-number subtraction). -/
def isExpired (threshold issuedAt now : Nat) : Bool :=
  threshold ≤ now - issuedAt

deriving instance DecidableEq for Except

/-- The slow-path work a call may need: refresh the expired session of the
cached user, or hydrate a user from the persisted session by a profile
fetch. -/
inductive PendingOp where
  | refreshOp (u : User)
  | hydrateOp (s : Session)
  deriving DecidableEq, Repr

/-- What the synchronous prefix of one `getCurrentUserAsync` call produces:
an immediate result (fast path or immediate error) or a slow-path request. -/
inductive ArrivalOutcome where
  | immediate (r : Except AuthError User)
  | needsSlow (op : PendingOp)
  deriving DecidableEq, Repr

/-- Modelled from the spec: the synchronous prefix of `getCurrentUserAsync`
(steps 1 and 2 of the algorithm plus the not-yet-initialized guard): a
missing identity fails, a fresh cached user is returned with no network
call, an expired cached user requests a refresh, an absent in-memory user
with a persisted session requests hydration, and otherwise the call fails
with `NotLoggedIn`. -/
def arrive (now : Nat) (c : UserManagerInstance) : ArrivalOutcome :=
  if c.clientIdentity.isNone then .immediate (.error .NotInitialized)
  else
    match c._currentUser with
    | some u =>
        if isExpired c.refreshSessionThreshold u.session.issuedAt now then
          .needsSlow (.refreshOp u)
        else
          .immediate (.ok u)
    | none =>
        match c.store with
        | some s => .needsSlow (.hydrateOp s)
        | none => .immediate (.error .NotLoggedIn)

/-- Whether `getCurrentUserAsync` would go down the slow/refresh path from
this state at this time. -/
def needsSlowPath (now : Nat) (c : UserManagerInstance) : Bool :=
  match arrive now c with
  | .needsSlow _ => true
  | .immediate _ => false

/-- Modelled from the spec: the coordinator accepts a provider session by
stamping `issuedAt` with the moment of acceptance and its own client
identity (issuedAt is set when the coordinator accepts the session, not at
provider-reported issue time). -/
def acceptSession (c : UserManagerInstance) (now : Nat) (s : Session) : Session :=
  { s with issuedAt := now, clientIdentity := c.clientIdentity.getD "" }

/-- Modelled from the spec: `SessionCache.set` — store the user in memory and
mirror its session to the CredentialStore. -/
def cacheSet (c : UserManagerInstance) (u : User) : UserManagerInstance :=
  { c with _currentUser := some u, store := some u.session }

/-- Modelled from the spec: the slow path proper (step 3 of the algorithm).
A refresh calls `IdentityClient.refresh` on the cached refresh token and, on
success, composes a new User reusing the cached profile and stores it; a
hydration calls the profile fetch on the persisted session's idToken and
composes the User from them.  On failure the cache is left as it was and the
error is the collaborator's. -/
def resolve (now : Nat) (client : IdentityClient) (c : UserManagerInstance) :
    PendingOp → Except AuthError User × UserManagerInstance × Calls
  | .refreshOp u =>
      match client.refresh u.session.refreshToken with
      | .ok s =>
          let u' : User := ⟨acceptSession c now s, u.profile⟩
          (.ok u', cacheSet c u', ⟨0, 1⟩)
      | .error e => (.error e, c, ⟨0, 1⟩)
  | .hydrateOp s =>
      match client.fetchProfile s.idToken with
      | .ok p => (.ok ⟨s, p⟩, cacheSet c ⟨s, p⟩, ⟨1, 0⟩)
      | .error e => (.error e, c, ⟨1, 0⟩)

/-- Modelled from the spec: one uncontended `getCurrentUserAsync` call — the
synchronous prefix followed, when needed, by the slow path. -/
def getCurrentUserAsync (now : Nat) (client : IdentityClient)
    (c : UserManagerInstance) :
    Except AuthError User × UserManagerInstance × Calls :=
  match arrive now c with
  | .immediate r => (r, c, ⟨0, 0⟩)
  | .needsSlow op => resolve now client c op

/-- Modelled from the spec: `loginAsync(strategy, credentials)` — log in via
the collaborator, fetch the profile for the returned session's idToken,
compose the User, store it; any failure propagates as
`AuthenticationFailed` and leaves the cache unchanged. -/
def loginAsync (now : Nat) (client : IdentityClient) (c : UserManagerInstance)
    (strategy : String) (creds : Credentials) :
    Except AuthError User × UserManagerInstance × Calls :=
  if c.clientIdentity.isNone then (.error .NotInitialized, c, ⟨0, 0⟩)
  else
    match client.login strategy creds with
    | .error _ => (.error .AuthenticationFailed, c, ⟨0, 0⟩)
    | .ok s =>
        match client.fetchProfile s.idToken with
        | .error _ => (.error .AuthenticationFailed, c, ⟨1, 0⟩)
        | .ok p =>
            let u : User := ⟨acceptSession c now s, p⟩
            (.ok u, cacheSet c u, ⟨1, 0⟩)

/-- Modelled from the spec: `logoutAsync()` — clear the in-memory user and
the persisted session.  Operations other than the initial identity binding
fail with `NotInitialized` before that binding has happened. -/
def logoutAsync (c : UserManagerInstance) :
    Except AuthError Unit × UserManagerInstance :=
  if c.clientIdentity.isNone then (.error .NotInitialized, c)
  else (.ok (), { c with _currentUser := none, store := none })

/-- Modelled from the spec: `ensureLoggedInAsync()` — attempt
`getCurrentUserAsync`, then fail with `NotLoggedIn` when the cache is still
absent and succeed with no return value otherwise. -/
def ensureLoggedInAsync (now : Nat) (client : IdentityClient)
    (c : UserManagerInstance) :
    Except AuthError Unit × UserManagerInstance × Calls :=
  let r := getCurrentUserAsync now client c
  match r.2.1._currentUser with
  | none => (.error .NotLoggedIn, r.2.1, r.2.2)
  | some _ => (.ok (), r.2.1, r.2.2)

/-- The shared state of a cohort of logically-concurrent calls: the
coordinator plus the at-most-one in-flight slow-path marker. -/
structure RunState where
  coord : UserManagerInstance
  inflight : Option PendingOp
  deriving DecidableEq, Repr

/-- How one cohort member ended its synchronous prefix: with an immediate
result, or attached (as owner or waiter) to the shared in-flight
operation. -/
inductive CallerTag where
  | immediate (r : Except AuthError User)
  | waiting
  deriving DecidableEq, Repr

/-- Modelled from the spec: the synchronous prefix of one cohort member
under cooperative scheduling — it consults the cache first; when the slow
path is needed it becomes the owner of a new in-flight operation if none
exists, and otherwise attaches to the one already in flight instead of
starting a second. -/
def arriveStep (now : Nat) (st : RunState) : RunState × CallerTag :=
  match arrive now st.coord with
  | .immediate r => (st, .immediate r)
  | .needsSlow op =>
      match st.inflight with
      | some _ => (st, .waiting)
      | none => ({ st with inflight := some op }, .waiting)

/-- The arrival phase of a cohort of n logically-concurrent calls: each runs
its synchronous prefix in turn, before anything resolves. -/
def arrivalPhase (now : Nat) : Nat → RunState → RunState × List CallerTag
  | 0, st => (st, [])
  | n + 1, st =>
      let p := arriveStep now st
      let q := arrivalPhase now n p.1
      (q.1, p.2 :: q.2)

/-- Deliver the shared in-flight result to a cohort member: immediate
members keep their own result, attached members receive the shared one. -/
def deliverTag (r : Except AuthError User) : CallerTag → Except AuthError User
  | .immediate ri => ri
  | .waiting => r

/-- Modelled from the spec: a cohort of n logically-concurrent
`getCurrentUserAsync` calls — all n synchronous prefixes run before the
network resolves; then the at-most-one in-flight operation resolves once,
its result is delivered to every attached caller, and the in-flight marker
is cleared (on success and on failure alike). -/
def runCohort (n now : Nat) (client : IdentityClient)
    (c : UserManagerInstance) :
    List (Except AuthError User) × RunState × Calls :=
  let a := arrivalPhase now n ⟨c, none⟩
  match a.1.inflight with
  | some op =>
      let r := resolve now client a.1.coord op
      (a.2.map (deliverTag r.1), ⟨r.2.1, none⟩, r.2.2)
  | none => (a.2.map (deliverTag (.error .NotLoggedIn)), a.1, ⟨0, 0⟩)

/-! ### Concrete fixtures used by the witnesses and counterexamples -/

/-- A concrete profile for the concrete instances below. -/
def demoProfile : Profile := ⟨"alice", "alice@example.com", "Alice", "Liddell", "user-1"⟩

/-- A concrete session issued at time 100. -/
def demoSession : Session := ⟨"token-a", "refresh-a", 100, "client-1"⟩

/-- The session a concrete refresh returns (a different token pair). -/
def refreshedSession : Session := ⟨"token-b", "refresh-b", 0, ""⟩

/-- The concrete user holding `demoSession` and `demoProfile`. -/
def demoUser : User := ⟨demoSession, demoProfile⟩

/-- An identity client whose calls all succeed with the fixtures above. -/
def demoClient : IdentityClient :=
  ⟨fun _ _ => .ok demoSession, fun _ => .ok demoProfile,
   fun _ => .ok refreshedSession⟩

/-- An identity client whose calls all fail. -/
def failingClient : IdentityClient :=
  ⟨fun _ _ => .error .AuthenticationFailed,
   fun _ => .error .AuthenticationFailed,
   fun _ => .error .RefreshFailed⟩

/-- A coordinator with a fresh logged-in user (threshold one hour). -/
def mgrLoggedIn : UserManagerInstance :=
  ⟨some "client-1", some demoUser, some demoSession, 3600⟩

/-- A coordinator whose in-memory user was cleared while the persisted
session remains (the state the lock test of the suite constructs). -/
def mgrNoMemory : UserManagerInstance :=
  ⟨some "client-1", none, some demoSession, 3600⟩

/-- An identity-bound coordinator on which no login has occurred. -/
def mgrEmpty : UserManagerInstance :=
  ⟨some "client-1", none, none, 3600⟩

/-- A logged-in coordinator whose threshold was set to two years in seconds
(the value the expiry test of the suite assigns). -/
def mgrBigThreshold : UserManagerInstance :=
  ⟨some "client-1", some demoUser, some demoSession, 63072000⟩

/-- A coordinator on which the identity was never bound. -/
def mgrBare : UserManagerInstance := ⟨none, none, none, 3600⟩

/-! ### Cohort lemmas -/

/-- Once an operation is in flight and the coordinator still needs the slow
path, every further arrival attaches as a waiter and changes nothing. -/
theorem arrivalPhase_attached (now n : Nat) (st : RunState) (op₀ op : PendingOp)
    (hin : st.inflight = some op₀) (hs : arrive now st.coord = .needsSlow op) :
    arrivalPhase now n st = (st, List.replicate n CallerTag.waiting) := by
  induction n with
  | zero => simp [arrivalPhase]
  | succ n ih =>
      have hstep : arriveStep now st = (st, CallerTag.waiting) := by
        simp [arriveStep, hs, hin]
      simp [arrivalPhase, hstep, ih, List.replicate]

/-- When the coordinator needs the slow path and nothing is in flight, a
cohort's first arrival marks the operation in flight and every member of
the cohort ends attached to it. -/
theorem arrivalPhase_start (now n : Nat) (c : UserManagerInstance)
    (op : PendingOp) (hs : arrive now c = .needsSlow op) :
    arrivalPhase now (n + 1) ⟨c, none⟩ =
      (⟨c, some op⟩, List.replicate (n + 1) CallerTag.waiting) := by
  have hstep : arriveStep now ⟨c, none⟩ =
      (⟨c, some op⟩, CallerTag.waiting) := by
    simp [arriveStep, hs]
  have hrest := arrivalPhase_attached now n ⟨c, some op⟩ op op rfl hs
  simp [arrivalPhase, hstep, hrest, List.replicate]

/-- A cohort issued while the coordinator needs the slow path resolves that
one operation once and hands its result to every member. -/
theorem runCohort_slow (now n : Nat) (client : IdentityClient)
    (c : UserManagerInstance) (op : PendingOp)
    (hs : arrive now c = .needsSlow op) :
    runCohort (n + 1) now client c =
      (List.replicate (n + 1) ((resolve now client c op).1),
       ⟨(resolve now client c op).2.1, none⟩,
       (resolve now client c op).2.2) := by
  have hA := arrivalPhase_start now n c op hs
  simp [runCohort, hA, List.map_replicate, deliverTag]

/-- Resolving the slow path performs exactly one collaborator invocation. -/
theorem resolve_calls_one (now : Nat) (client : IdentityClient)
    (c : UserManagerInstance) (op : PendingOp) :
    (resolve now client c op).2.2.profileFetches
      + (resolve now client c op).2.2.refreshes = 1 := by
  rcases op with u | s
  · rcases hr : client.refresh u.session.refreshToken with e | s' <;>
      simp [resolve, hr]
  · rcases hp : client.fetchProfile s.idToken with e | p <;>
      simp [resolve, hp]

/-- The in-flight marker never survives a cohort. -/
theorem runCohort_inflight_none (n now : Nat) (client : IdentityClient)
    (c : UserManagerInstance) :
    (runCohort n now client c).2.1.inflight = none := by
  unfold runCohort
  rcases h : (arrivalPhase now n ⟨c, none⟩).1.inflight with _ | op <;> simp [h]

/-! ### Claim theorems -/

/-- C1: for every cohort of N ≥ 2 logically-concurrent `getCurrentUserAsync`
calls issued while the cached session requires a fetch or refresh, the
collaborator is invoked exactly once for the whole cohort and all N calls
return the identical result (hence identical idToken and refreshToken). -/
theorem getCurrentUser_cohort_single_flight (n now : Nat)
    (client : IdentityClient) (c : UserManagerInstance) (op : PendingOp)
    (hn : 2 ≤ n) (hs : arrive now c = .needsSlow op) :
    (runCohort n now client c).1 =
      List.replicate n ((resolve now client c op).1) ∧
    (runCohort n now client c).2.2.profileFetches
      + (runCohort n now client c).2.2.refreshes = 1 := by
  obtain ⟨m, rfl⟩ : ∃ m, n = m + 1 := ⟨n - 1, by omega⟩
  rw [runCohort_slow now m client c op hs]
  exact ⟨rfl, resolve_calls_one now client c op⟩

/-- Witness for C1: two concurrent calls on a coordinator whose in-memory
user was cleared share one profile fetch and return identical results. -/
theorem getCurrentUser_cohort_single_flight_witness :
    (runCohort 2 105 demoClient mgrNoMemory).1 =
      List.replicate 2
        ((resolve 105 demoClient mgrNoMemory (.hydrateOp demoSession)).1) ∧
    (runCohort 2 105 demoClient mgrNoMemory).2.2.profileFetches
      + (runCohort 2 105 demoClient mgrNoMemory).2.2.refreshes = 1 :=
  getCurrentUser_cohort_single_flight 2 105 demoClient mgrNoMemory
    (.hydrateOp demoSession) (by decide) rfl

/-- C2: when a cached user is present and its session is not expired,
`getCurrentUserAsync` returns that cached user, changes nothing, and makes
zero profile-fetch and zero refresh invocations. -/
theorem getCurrentUser_fast_path_no_network (now : Nat)
    (client : IdentityClient) (c : UserManagerInstance) (i : String) (u : User)
    (hi : c.clientIdentity = some i)
    (hu : c._currentUser = some u)
    (hfresh : now - u.session.issuedAt < c.refreshSessionThreshold) :
    getCurrentUserAsync now client c = (.ok u, c, ⟨0, 0⟩) := by
  have hexp : isExpired c.refreshSessionThreshold u.session.issuedAt now
      = false := by
    simp only [isExpired, decide_eq_false_iff_not]
    omega
  simp [getCurrentUserAsync, arrive, hi, hu, hexp]

/-- Witness for C2: the fresh logged-in coordinator serves the cached user
with zero collaborator invocations. -/
theorem getCurrentUser_fast_path_no_network_witness :
    getCurrentUserAsync 105 demoClient mgrLoggedIn =
      (.ok demoUser, mgrLoggedIn, ⟨0, 0⟩) :=
  getCurrentUser_fast_path_no_network 105 demoClient mgrLoggedIn "client-1"
    demoUser rfl rfl (by decide)

/-- C3 counterexample: under the spec's expiry rule a two-year threshold
does not force every call down the slow/refresh path — at time 105 the
logged-in coordinator whose threshold is 63072000 answers on the fast path
with zero collaborator invocations. -/
theorem large_threshold_fast_path_counterexample :
    needsSlowPath 105 mgrBigThreshold = false ∧
    getCurrentUserAsync 105 demoClient mgrBigThreshold =
      (.ok demoUser, mgrBigThreshold, ⟨0, 0⟩) :=
  ⟨rfl, rfl⟩

/-- C3 (amended): with a cached user present on an identity-bound
coordinator, `getCurrentUserAsync` goes down the slow/refresh path exactly
when `now - issuedAt ≥ refreshSessionThreshold`; a large threshold
therefore keeps a recently-issued session on the fast path, and the slow
path is forced only once the session's age reaches the threshold. -/
theorem expired_iff_age_ge_threshold (now : Nat) (c : UserManagerInstance)
    (i : String) (u : User)
    (hi : c.clientIdentity = some i) (hu : c._currentUser = some u) :
    needsSlowPath now c = true ↔
      c.refreshSessionThreshold ≤ now - u.session.issuedAt := by
  by_cases h : c.refreshSessionThreshold ≤ now - u.session.issuedAt
  · have hexp : isExpired c.refreshSessionThreshold u.session.issuedAt now
        = true := by simp [isExpired, h]
    simp [needsSlowPath, arrive, hi, hu, hexp, h]
  · have hexp : isExpired c.refreshSessionThreshold u.session.issuedAt now
        = false := by
      simp only [isExpired, decide_eq_false_iff_not]
      omega
    simp [needsSlowPath, arrive, hi, hu, hexp, h]

/-- Witness for C3 (amended): at time 4000 the one-hour-threshold
coordinator's slow-path test coincides with the age test `3600 ≤ 3900`. -/
theorem expired_iff_age_ge_threshold_witness :
    needsSlowPath 4000 mgrLoggedIn = true ↔
      mgrLoggedIn.refreshSessionThreshold ≤ 4000 - demoUser.session.issuedAt :=
  expired_iff_age_ge_threshold 4000 mgrLoggedIn "client-1" demoUser rfl rfl

/-- C4 at its failing input: the spec's expiry rule makes a logged-in
coordinator whose `refreshSessionThreshold` was just set to 63072000 (two
years) serve the very next `getCurrentUserAsync` from the cache — zero
refresh invocations and an unchanged idToken — where the claim and the
suite's expiry test expect one refresh invocation and a fresh idToken. -/
theorem big_threshold_no_refresh_at_failing_input :
    (getCurrentUserAsync 105 demoClient mgrBigThreshold).2.2.refreshes = 0 ∧
    (getCurrentUserAsync 105 demoClient mgrBigThreshold).1 = .ok demoUser :=
  ⟨rfl, rfl⟩

/-- C5: on an identity-bound coordinator, when no user is cached and no
session is persisted, `ensureLoggedInAsync` fails with `NotLoggedIn`, whose
user-visible message is exactly "Not logged in"; when a user is cached it
succeeds with no return value. -/
theorem ensureLoggedIn_spec (now : Nat) (client : IdentityClient)
    (c : UserManagerInstance) (i : String)
    (hi : c.clientIdentity = some i) :
    (c._currentUser = none → c.store = none →
      ensureLoggedInAsync now client c = (.error .NotLoggedIn, c, ⟨0, 0⟩)) ∧
    AuthError.message .NotLoggedIn = "Not logged in" ∧
    (c._currentUser.isSome = true →
      (ensureLoggedInAsync now client c).1 = .ok ()) := by
  refine ⟨?_, rfl, ?_⟩
  · intro h1 h2
    simp [ensureLoggedInAsync, getCurrentUserAsync, arrive, hi, h1, h2]
  · intro hsome
    rcases hu : c._currentUser with _ | u
    · rw [hu] at hsome
      simp at hsome
    · by_cases hexp : isExpired c.refreshSessionThreshold u.session.issuedAt now
        = true
      · rcases hr : client.refresh u.session.refreshToken with e | s <;>
          simp [ensureLoggedInAsync, getCurrentUserAsync, arrive, resolve,
            cacheSet, hi, hu, hexp, hr]
      · rw [Bool.not_eq_true] at hexp
        simp [ensureLoggedInAsync, getCurrentUserAsync, arrive, hi, hu, hexp]

/-- Witness for C5: the never-logged-in coordinator fails with the exact
message, and the logged-in coordinator succeeds. -/
theorem ensureLoggedIn_spec_witness :
    (ensureLoggedInAsync 0 demoClient mgrEmpty).1 = .error .NotLoggedIn ∧
    AuthError.message .NotLoggedIn = "Not logged in" ∧
    (ensureLoggedInAsync 0 demoClient mgrLoggedIn).1 = .ok () := by
  refine ⟨?_, (ensureLoggedIn_spec 0 demoClient mgrEmpty "client-1" rfl).2.1,
    (ensureLoggedIn_spec 0 demoClient mgrLoggedIn "client-1" rfl).2.2 rfl⟩
  rw [(ensureLoggedIn_spec 0 demoClient mgrEmpty "client-1" rfl).1 rfl rfl]

/-- C6: after a successful `loginAsync` against a provider that returns a
profile matching the credentials and a non-empty token, a subsequent
`getCurrentUserAsync` issued while the accepted session is still fresh
returns the same non-absent user, whose username equals the credentials'
username and whose idToken is non-empty. -/
theorem login_then_getCurrentUser (now now' : Nat) (client : IdentityClient)
    (c : UserManagerInstance) (i strategy : String) (creds : Credentials)
    (s : Session) (p : Profile)
    (hi : c.clientIdentity = some i)
    (hlog : client.login strategy creds = .ok s)
    (hp : client.fetchProfile s.idToken = .ok p)
    (hname : p.username = creds.username)
    (htok : s.idToken ≠ "")
    (hfresh : now' - now < c.refreshSessionThreshold) :
    (loginAsync now client c strategy creds).1 =
      .ok ⟨acceptSession c now s, p⟩ ∧
    (getCurrentUserAsync now' client
        (loginAsync now client c strategy creds).2.1).1 =
      .ok ⟨acceptSession c now s, p⟩ ∧
    (⟨acceptSession c now s, p⟩ : User).profile.username = creds.username ∧
    (⟨acceptSession c now s, p⟩ : User).session.idToken ≠ "" := by
  have hlA : loginAsync now client c strategy creds =
      (.ok ⟨acceptSession c now s, p⟩,
       cacheSet c ⟨acceptSession c now s, p⟩, ⟨1, 0⟩) := by
    simp [loginAsync, hi, hlog, hp]
  have hexp : isExpired c.refreshSessionThreshold now now' = false := by
    simp only [isExpired, decide_eq_false_iff_not]
    omega
  refine ⟨by rw [hlA], ?_, hname, htok⟩
  rw [hlA]
  simp [getCurrentUserAsync, arrive, cacheSet, acceptSession, hi, hexp]

/-- Witness for C6: logging in on the empty coordinator and asking again
five ticks later returns the same user with the credentials' username. -/
theorem login_then_getCurrentUser_witness :
    (loginAsync 200 demoClient mgrEmpty "user-pass" ⟨"alice", "pw"⟩).1 =
      .ok ⟨acceptSession mgrEmpty 200 demoSession, demoProfile⟩ ∧
    (getCurrentUserAsync 205 demoClient
        (loginAsync 200 demoClient mgrEmpty "user-pass" ⟨"alice", "pw"⟩).2.1).1 =
      .ok ⟨acceptSession mgrEmpty 200 demoSession, demoProfile⟩ ∧
    (⟨acceptSession mgrEmpty 200 demoSession, demoProfile⟩ : User).profile.username
      = (⟨"alice", "pw"⟩ : Credentials).username ∧
    (⟨acceptSession mgrEmpty 200 demoSession, demoProfile⟩ : User).session.idToken
      ≠ "" :=
  login_then_getCurrentUser 200 205 demoClient mgrEmpty "client-1" "user-pass"
    ⟨"alice", "pw"⟩ demoSession demoProfile rfl rfl rfl rfl
    (by decide) (by decide)

/-- C7: when the slow path fails, every member of the cohort receives that
same failure (no waiter is left pending), the coordinator state is
untouched, and the in-flight marker is cleared — as it also is for an
arbitrary second client, succeeding or failing — so a subsequent call
starts a fresh attempt. -/
theorem slow_path_failure_propagates (n now : Nat)
    (client client₂ : IdentityClient) (c : UserManagerInstance)
    (op : PendingOp) (e : AuthError)
    (hn : 2 ≤ n) (hs : arrive now c = .needsSlow op)
    (he : (resolve now client c op).1 = .error e) :
    (runCohort n now client c).1 = List.replicate n (.error e) ∧
    (runCohort n now client c).2.1.inflight = none ∧
    (runCohort n now client c).2.1.coord = c ∧
    (runCohort n now client₂ c).2.1.inflight = none := by
  obtain ⟨m, rfl⟩ : ∃ m, n = m + 1 := ⟨n - 1, by omega⟩
  have hcoord : (resolve now client c op).2.1 = c := by
    rcases op with u | s
    · rcases hr : client.refresh u.session.refreshToken with e' | s'
      · simp [resolve, hr]
      · simp [resolve, hr] at he
    · rcases hp : client.fetchProfile s.idToken with e' | p
      · simp [resolve, hp]
      · simp [resolve, hp] at he
  have hrun := runCohort_slow now m client c op hs
  refine ⟨?_, ?_, ?_, runCohort_inflight_none (m + 1) now client₂ c⟩
  · rw [hrun, he]
  · rw [hrun]
  · rw [hrun]
    exact hcoord

/-- Witness for C7: a cohort of two against the failing client both receive
the same `AuthenticationFailed`, the state is untouched, and no marker
survives — under the failing client or the succeeding one. -/
theorem slow_path_failure_propagates_witness :
    (runCohort 2 105 failingClient mgrNoMemory).1 =
      List.replicate 2 (.error .AuthenticationFailed) ∧
    (runCohort 2 105 failingClient mgrNoMemory).2.1.inflight = none ∧
    (runCohort 2 105 failingClient mgrNoMemory).2.1.coord = mgrNoMemory ∧
    (runCohort 2 105 demoClient mgrNoMemory).2.1.inflight = none :=
  slow_path_failure_propagates 2 105 failingClient demoClient mgrNoMemory
    (.hydrateOp demoSession) .AuthenticationFailed (by decide) rfl rfl

/-- C8: on an identity-bound coordinator, every failure of `loginAsync` —
bad credentials at the login step or a failure of the profile fetch —
surfaces as `AuthenticationFailed` and leaves the coordinator state, hence
the SessionCache and its persisted mirror, exactly as it was. -/
theorem login_failure_atomic (now : Nat) (client : IdentityClient)
    (c : UserManagerInstance) (i strategy : String) (creds : Credentials)
    (e : AuthError)
    (hi : c.clientIdentity = some i)
    (he : (loginAsync now client c strategy creds).1 = .error e) :
    e = .AuthenticationFailed ∧
    (loginAsync now client c strategy creds).2.1 = c := by
  rcases hlog : client.login strategy creds with e' | s
  · simp [loginAsync, hi, hlog] at he ⊢
    exact he.symm
  · rcases hp : client.fetchProfile s.idToken with e' | p
    · simp [loginAsync, hi, hlog, hp] at he ⊢
      exact he.symm
    · simp [loginAsync, hi, hlog, hp] at he

/-- Witness for C8: a login against the failing client fails with
`AuthenticationFailed` and leaves the empty coordinator untouched. -/
theorem login_failure_atomic_witness :
    (AuthError.AuthenticationFailed = AuthError.AuthenticationFailed) ∧
    (loginAsync 0 failingClient mgrEmpty "user-pass" ⟨"alice", "pw"⟩).2.1 =
      mgrEmpty :=
  login_failure_atomic 0 failingClient mgrEmpty "client-1" "user-pass"
    ⟨"alice", "pw"⟩ .AuthenticationFailed rfl rfl

/-- C9 counterexample: `logoutAsync` does not succeed from every state — on
a coordinator whose client identity was never bound it fails with the
not-yet-bound error instead of succeeding. -/
theorem logout_unbound_fails_counterexample :
    (logoutAsync mgrBare).1 = .error .NotInitialized ∧
    (logoutAsync mgrBare).1 ≠ .ok () := by
  refine ⟨rfl, ?_⟩
  intro h
  cases h

/-- C9 (amended): on every identity-bound coordinator `logoutAsync`
succeeds — even when nothing was logged in — clears the cached user and
the persisted session, is idempotent, and a subsequent
`getCurrentUserAsync` fails with `NotLoggedIn`. -/
theorem logout_idempotent_then_not_logged_in (now : Nat)
    (client : IdentityClient) (c : UserManagerInstance) (i : String)
    (hi : c.clientIdentity = some i) :
    (logoutAsync c).1 = .ok () ∧
    (logoutAsync c).2._currentUser = none ∧
    (logoutAsync c).2.store = none ∧
    logoutAsync (logoutAsync c).2 = (.ok (), (logoutAsync c).2) ∧
    (getCurrentUserAsync now client (logoutAsync c).2).1 =
      .error .NotLoggedIn := by
  simp [logoutAsync, getCurrentUserAsync, arrive, hi]

/-- Witness for C9 (amended): logging out the logged-in coordinator — and
the already-empty one again — succeeds and leaves `getCurrentUserAsync`
failing with `NotLoggedIn`. -/
theorem logout_idempotent_then_not_logged_in_witness :
    (logoutAsync mgrLoggedIn).1 = .ok () ∧
    (logoutAsync mgrLoggedIn).2._currentUser = none ∧
    (logoutAsync mgrLoggedIn).2.store = none ∧
    logoutAsync (logoutAsync mgrLoggedIn).2 = (.ok (), (logoutAsync mgrLoggedIn).2) ∧
    (getCurrentUserAsync 0 demoClient (logoutAsync mgrLoggedIn).2).1 =
      .error .NotLoggedIn :=
  logout_idempotent_then_not_logged_in 0 demoClient mgrLoggedIn "client-1" rfl

/-- C10: after a successful login, clearing only the in-memory cached user
leaves a subsequent `getCurrentUserAsync` succeeding rather than failing
with `NotLoggedIn`: it re-hydrates through exactly one profile fetch and
returns the logged-in user again — the same idToken and refreshToken. -/
theorem rehydrate_after_memory_clear (now now' : Nat)
    (client : IdentityClient) (c : UserManagerInstance)
    (i strategy : String) (creds : Credentials) (s : Session) (p : Profile)
    (hi : c.clientIdentity = some i)
    (hlog : client.login strategy creds = .ok s)
    (hp : client.fetchProfile s.idToken = .ok p) :
    (getCurrentUserAsync now' client
        { (loginAsync now client c strategy creds).2.1 with
            _currentUser := none }).1 =
      (loginAsync now client c strategy creds).1 ∧
    (getCurrentUserAsync now' client
        { (loginAsync now client c strategy creds).2.1 with
            _currentUser := none }).2.2 = ⟨1, 0⟩ ∧
    (getCurrentUserAsync now' client
        { (loginAsync now client c strategy creds).2.1 with
            _currentUser := none }).1 ≠ .error .NotLoggedIn := by
  have hlA : loginAsync now client c strategy creds =
      (.ok ⟨acceptSession c now s, p⟩,
       cacheSet c ⟨acceptSession c now s, p⟩, ⟨1, 0⟩) := by
    simp [loginAsync, hi, hlog, hp]
  rw [hlA]
  refine ⟨?_, ?_, ?_⟩ <;>
    simp [getCurrentUserAsync, arrive, resolve, cacheSet, acceptSession,
      hi, hp]

/-- Witness for C10: on the concrete login, clearing the in-memory user and
asking again re-hydrates the very same user with one profile fetch. -/
theorem rehydrate_after_memory_clear_witness :
    (getCurrentUserAsync 300 demoClient
        { (loginAsync 200 demoClient mgrEmpty "user-pass" ⟨"alice", "pw"⟩).2.1 with
            _currentUser := none }).1 =
      (loginAsync 200 demoClient mgrEmpty "user-pass" ⟨"alice", "pw"⟩).1 ∧
    (getCurrentUserAsync 300 demoClient
        { (loginAsync 200 demoClient mgrEmpty "user-pass" ⟨"alice", "pw"⟩).2.1 with
            _currentUser := none }).2.2 = ⟨1, 0⟩ ∧
    (getCurrentUserAsync 300 demoClient
        { (loginAsync 200 demoClient mgrEmpty "user-pass" ⟨"alice", "pw"⟩).2.1 with
            _currentUser := none }).1 ≠ .error .NotLoggedIn :=
  rehydrate_after_memory_clear 200 300 demoClient mgrEmpty "client-1"
    "user-pass" ⟨"alice", "pw"⟩ demoSession demoProfile rfl rfl rfl

end Xdl
